import Mathlib

/-!
Verification of the Quin-QuantAI conversational analytics UI and its SQL
passthrough backend.  The definitions below are a shallow embedding of the
TypeScript source: the chat message model and renderer from
`ChatInterface` (src/unnamed/part_001), the upload handler from
`DatasetUpload` (src/unnamed/part_002), the column classifier from
`VisualizationPanel.tsx`, and the `/execute` route from
`backend/src/services/database.ts`.
-/

namespace QuantAI

/-- Model of a JavaScript value as it appears in a result row: `vNull`
covers both `null` and `undefined`; numbers are modelled as rationals. -/
inductive JSVal where
  | vNull
  | vNum (q : ℚ)
  | vStr (s : String)
  | vBool (b : Bool)
  deriving DecidableEq, Repr

/-- A result row: ordered association list of column name to value,
modelling a JS object with insertion-ordered keys. -/
abbrev Row := List (String × JSVal)

/-- JS truthiness of an optional string: `undefined` and the empty string
are falsy, every other string is truthy. -/
def jsTruthy : Option String → Bool
  | none => false
  | some s => s ≠ ""

/-- Whether the first character list is an initial segment of the second. -/
def leadsWith : List Char → List Char → Bool
  | [], _ => true
  | _ :: _, [] => false
  | a :: as, b :: bs => a = b && leadsWith as bs

/-- Whether the first character list occurs contiguously inside the
second. -/
def containsSeq (needle : List Char) : List Char → Bool
  | [] => leadsWith needle []
  | b :: bs => leadsWith needle (b :: bs) || containsSeq needle bs

/-- JS `haystack.includes(needle)`: substring containment. -/
def jsIncludes (hay needle : String) : Bool :=
  containsSeq needle.toList hay.toList

/-- JS `s.endsWith(suffix)`. -/
def jsEndsWith (s suffix : String) : Bool :=
  leadsWith suffix.toList.reverse s.toList.reverse

/-- JS `s.toLowerCase()` on the ASCII range. -/
def jsToLower (s : String) : String :=
  String.mk (s.toList.map Char.toLower)

/-- JS `s.trim()`: strip leading and trailing whitespace. -/
def jsTrim (s : String) : String :=
  String.mk (((s.toList.dropWhile Char.isWhitespace).reverse.dropWhile
    Char.isWhitespace).reverse)

/-- `row[column]`: association-list lookup; a missing key is `undefined`,
modelled as `vNull`. -/
def rowGet (row : Row) (column : String) : JSVal :=
  match row.find? (fun p => p.1 = column) with
  | some p => p.2
  | none => .vNull

/-- Round a rational to the nearest integer, ties away from zero, as the
default `Intl` rounding used by `toLocaleString` does. -/
def roundHalfAway (x : ℚ) : ℤ :=
  if 0 ≤ x then Rat.floor (x + 1/2) else -(Rat.floor (-x + 1/2))

/-- Insert a comma after every group of three digits, counting from the
right; input and output are reversed digit lists. -/
def commaRev : List Char → Nat → List Char
  | [], _ => []
  | c :: cs, i =>
    let rest := commaRev cs (i + 1)
    if cs ≠ [] ∧ (i + 1) % 3 = 0 then c :: ',' :: rest else c :: rest

/-- Group the digits of a decimal numeral in threes with commas,
en-US style: `"1234567"` becomes `"1,234,567"`. -/
def commaGroup (s : String) : String :=
  String.mk ((commaRev s.toList.reverse 0).reverse)

/-- Left-pad a fraction part below 100 to two digits. -/
def twoDigits (n : Nat) : String :=
  (if n < 10 then "0" else "") ++ toString n

/-- `value.toLocaleString('en-US', {minimumFractionDigits: 2,
maximumFractionDigits: 2})`: grouped decimal with exactly two fraction
digits. -/
def localeNum2 (q : ℚ) : String :=
  let cents : ℤ := roundHalfAway (q * 100)
  let sign := if cents < 0 then "-" else ""
  let m := cents.natAbs
  sign ++ commaGroup (toString (m / 100)) ++ "." ++ twoDigits (m % 100)

/-- `value.toLocaleString('en-US', {style: 'currency', currency: 'USD',
minimumFractionDigits: 2, maximumFractionDigits: 2})`. -/
def localeUSD (q : ℚ) : String :=
  let cents : ℤ := roundHalfAway (q * 100)
  let sign := if cents < 0 then "-" else ""
  let m := cents.natAbs
  sign ++ "$" ++ commaGroup (toString (m / 100)) ++ "." ++ twoDigits (m % 100)

/-- JS number-to-string for a terminating decimal: integer part, then the
fraction digits with trailing zeros stripped (bounded fuel; every value the
claims touch terminates well inside it).  Unreachable from `formatValue`,
which never applies `String(value)` to a number. -/
def ratFracDigits : Nat → Nat → Nat → List Char
  | 0, _, _ => []
  | _ + 1, _, 0 => []
  | fuel + 1, den, rem =>
    let d := rem * 10 / den
    Char.ofNat (48 + d % 10) :: ratFracDigits fuel den (rem * 10 % den)

/-- Models JS `String(value)` on the values that occur in rows. -/
def jsToString : JSVal → String
  | .vNull => "null"
  | .vStr s => s
  | .vBool b => if b then "true" else "false"
  | .vNum q =>
    let sign := if q < 0 then "-" else ""
    let n := q.num.natAbs
    let d := q.den
    let frac := ratFracDigits 30 d (n % d)
    sign ++ toString (n / d) ++ (if frac = [] then "" else "." ++ String.mk frac)

/-- The column-name heuristic `columnName.toLowerCase().includes('date') ||
columnName.toLowerCase().includes('time')` shared by `formatValue` and
`getColumnType`. -/
def isDateTimeColumn (c : String) : Bool :=
  jsIncludes (jsToLower c) "date" || jsIncludes (jsToLower c) "time"

/-- The column-name heuristic matching `amount`, `price`, `revenue`, or
`total`, shared by `formatValue` and `getColumnType`. -/
def isCurrencyColumn (c : String) : Bool :=
  jsIncludes (jsToLower c) "amount" || jsIncludes (jsToLower c) "price" ||
    jsIncludes (jsToLower c) "revenue" || jsIncludes (jsToLower c) "total"

/-- `formatValue` from ChatInterface (src/unnamed/part_001 lines 267-297),
parameterised by the host function `dateFmt`, which models
`new Date(value).toLocaleString()` (its output depends on the runtime
locale and time zone, so it is kept abstract). -/
def formatValue (dateFmt : JSVal → String) (value : JSVal) (columnName : String) : String :=
  if value = .vNull then "N/A"
  else if isDateTimeColumn columnName then
    dateFmt value
  else if isCurrencyColumn columnName then
    match value with
    | .vNum q => localeUSD q
    | v => jsToString v
  else
    match value with
    | .vNum q => localeNum2 q
    | v => jsToString v

/-- `getColumnType` from ChatInterface (part_001 lines 300-314): display
type of a column from its name and the sampled first-row value. -/
def getColumnType (columnName : String) (sampleValue : JSVal) : String :=
  if isDateTimeColumn columnName then "date"
  else if isCurrencyColumn columnName then "currency"
  else match sampleValue with
    | .vNum _ => "number"
    | _ => "text"

/-- Roles of a conversation turn. -/
inductive Role where
  | user
  | assistant
  deriving DecidableEq, Repr

/-- The `Message` model from types/chat.ts, restricted to the fields the
renderer and submitter read (`id` and `timestamp` are never consumed by
the logic under verification). -/
structure Message where
  content : String
  role : Role
  explanation : Option String := none
  summary : Option String := none
  query : Option String := none
  data : Option (List Row) := none
  type : Option String := none
  deriving DecidableEq, Repr

/-- The `ChatResponse` contract from types/chat.ts (fields the submitter
reads). -/
structure ChatResponse where
  query : String
  explanation : String
  summary : Option String := none
  data : Option (List Row) := none
  sql : Option String := none
  type : Option String := none
  deriving DecidableEq, Repr

/-- Rendered form of the data table produced by `renderDataTable`
(part_001 lines 392-463): either the fallback notice "No data found." or
a table of header names and formatted cell strings plus the row-count
footer. -/
inductive RenderedTable where
  | noDataNotice
  | table (columns : List String) (cells : List (List String)) (rowCount : Nat)
  deriving DecidableEq, Repr

/-- `renderDataTable` from ChatInterface: empty data yields the notice;
otherwise the column list is the key set of the first row, and every cell
is `formatValue(row[column], column)`. -/
def renderDataTable (dateFmt : JSVal → String) (data : List Row) : RenderedTable :=
  match data with
  | [] => .noDataNotice
  | first :: _ =>
    let columns := first.map Prod.fst
    .table columns
      (data.map fun row => columns.map fun c => formatValue dateFmt (rowGet row c) c)
      data.length

/-- Rendered form of one assistant message, one constructor per exit of
`renderAssistantMessage` (part_001 lines 574-680): the dataset-summary
card, the no-dataset warning panel, the narrative-only branch, and the
default data-answer branch with its optional main text, optional SQL
block and optional table. -/
inductive RenderedMessage where
  | datasetSummary (summary : Option String) (explanation : Option String)
  | noDataset (explanation : String)
  | narrative (explanation : Option String)
  | dataAnswer (mainText : Option String) (sqlBlock : Option String)
      (table : Option RenderedTable)
  deriving DecidableEq, Repr

/-- The `nonDataTypes` list from part_001 lines 621-623. -/
def nonDataTypes : List String :=
  ["knowledge_base", "greeting", "help", "ai_info", "operation",
   "general_knowledge", "out_of_scope", "error"]

/-- Default explanation shown on the no-dataset panel when the message
carries none. -/
def noDatasetFallback : String :=
  "Please upload a dataset first, and then I\x27ll be happy to help you analyze it!"

/-- `message.type && nonDataTypes.includes(message.type)`: the guard that
selects the narrative-only branch. -/
def narrativeGuard (m : Message) : Bool :=
  match m.type with
  | none => false
  | some t => t ≠ "" && nonDataTypes.contains t

/-- The guard on the SQL block of the default branch (part_001 lines
653-658). -/
def sqlBlockGuard (query : Option String) : Bool :=
  jsTruthy query &&
    (let q := jsToLower (query.getD "")
     jsIncludes q "select" &&
       !jsIncludes q "\x27greeting\x27" &&
       !jsIncludes q "\x27ai_info\x27" &&
       !jsIncludes q "\x27help\x27" &&
       !jsIncludes q "\x27out_of_scope\x27")

/-- `renderAssistantMessage` from ChatInterface (part_001 lines 574-680),
translated branch by branch; text nodes are kept as the raw strings fed to
`processMessageContent`. -/
def renderAssistantMessage (dateFmt : JSVal → String) (m : Message) : RenderedMessage :=
  if m.type = some "dataset_summary" then
    .datasetSummary
      (if jsTruthy m.summary then m.summary else none)
      (if jsTruthy m.explanation then m.explanation else none)
  else if m.type = some "no_dataset" then
    .noDataset (if jsTruthy m.explanation then m.explanation.getD "" else noDatasetFallback)
  else if narrativeGuard m then
    .narrative (if jsTruthy m.explanation then m.explanation else none)
  else
    let mainText := if jsTruthy m.summary then m.summary else m.explanation
    .dataAnswer
      (if jsTruthy mainText then mainText else none)
      (if sqlBlockGuard m.query then m.query else none)
      (match m.data with
       | some d => if d.length > 0 then some (renderDataTable dateFmt d) else none
       | none => none)

/-- Whether a rendered message contains a SQL block. -/
def hasSqlBlock : RenderedMessage → Bool
  | .dataAnswer _ (some _) _ => true
  | _ => false

/-- Whether a rendered message contains a data table. -/
def hasDataTable : RenderedMessage → Bool
  | .dataAnswer _ _ (some (.table _ _ _)) => true
  | _ => false

/-- Whether a rendered message contains the "No data found." notice. -/
def hasNoDataNotice : RenderedMessage → Bool
  | .dataAnswer _ _ (some .noDataNotice) => true
  | _ => false

/-- The user turn built by `handleSubmit` for a given raw input (part_001
lines 469-474): content is the trimmed input. -/
def mkUserMessage (input : String) : Message :=
  { content := jsTrim input, role := .user }

/-- The structured assistant turn built from a resolved `ChatResponse`
(part_001 lines 493-503): content is the empty string, the response
fields are copied across. -/
def assistantFromResponse (r : ChatResponse) : Message :=
  { content := "", role := .assistant, explanation := some r.explanation,
    summary := r.summary, query := some r.query, data := r.data, type := r.type }

/-- The synthetic assistant turn appended when the send fails (part_001
lines 511-516): a fixed human-readable message in `content` only. -/
def errorMessage : Message :=
  { content := "Sorry, I encountered an error. Please try again.", role := .assistant }

/-- One entry of the history payload: `{user?, assistant?}`. -/
structure HistoryEntry where
  user : Option String := none
  assistant : Option String := none
  deriving DecidableEq, Repr

/-- JS `messages.slice(-10)`: the last ten elements. -/
def lastTen (l : List Message) : List Message :=
  l.drop (l.length - 10)

/-- The history payload built inside `handleSubmit` (part_001 lines
485-489): the last ten turns mapped to `{user?, assistant?}` — the
assistant value is `m.summary || m.explanation || m.content` — then
filtered by `h.user || h.assistant` under JS truthiness. -/
def buildHistory (messages : List Message) : List HistoryEntry :=
  ((lastTen messages).map fun m =>
    { user := if m.role = .user then some m.content else none,
      assistant :=
        if m.role = .assistant then
          some (if jsTruthy m.summary then m.summary.getD ""
                else if jsTruthy m.explanation then m.explanation.getD ""
                else m.content)
        else none }).filter
    fun h => jsTruthy h.user || jsTruthy h.assistant

/-- Outcome of the awaited `sendMessage` call: a resolved `ChatResponse`
or a rejection of any kind (network failure, non-2xx, malformed body). -/
abbrev SendOutcome := Except Unit ChatResponse

/-- Result of one `handleSubmit` invocation: the log right after the
immediate append, the log after the request resolves, and whether the
network call was issued. -/
structure SubmitResult where
  afterUser : List Message
  final : List Message
  networkCalled : Bool
  deriving DecidableEq, Repr

/-- `handleSubmit` from ChatInterface (part_001 lines 465-521) as a state
transition on the message log.  The guard is `if (!input.trim()) return`.
On the success path the component also awaits `onQueryExecute` when the
response carries `sql`; the only caller in the repository (App.tsx)
passes `async () => {}` for that prop, so it never rejects and appends
nothing. -/
def handleSubmit (input : String) (messages : List Message) (outcome : SendOutcome) :
    SubmitResult :=
  if jsTrim input = "" then
    { afterUser := messages, final := messages, networkCalled := false }
  else
    let afterUser := messages ++ [mkUserMessage input]
    match outcome with
    | .ok r => { afterUser, final := afterUser ++ [assistantFromResponse r], networkCalled := true }
    | .error _ => { afterUser, final := afterUser ++ [errorMessage], networkCalled := true }

/-- Whether `Number(v)` is `NaN` for a string, per the JS
string-to-number grammar: surrounding whitespace is ignored, the empty
string is 0, otherwise the text must be a signed decimal literal (with
optional fraction and exponent), `Infinity`, or a hex/octal/binary
literal. -/
def digitsNonEmpty (l : List Char) : Bool :=
  !l.isEmpty && l.all Char.isDigit

/-- An unsigned decimal mantissa: digits, optionally with one dot, with at
least one digit overall. -/
def decMantissa (l : List Char) : Bool :=
  let a := l.takeWhile (fun c => c ≠ '.')
  match l.drop a.length with
  | [] => digitsNonEmpty a
  | '.' :: b => a.all Char.isDigit && b.all Char.isDigit && (!a.isEmpty || !b.isEmpty)
  | _ => false

/-- An optionally signed exponent part (the digits after `e`/`E`). -/
def expPart (l : List Char) : Bool :=
  match l with
  | '+' :: d => digitsNonEmpty d
  | '-' :: d => digitsNonEmpty d
  | d => digitsNonEmpty d

/-- An unsigned decimal literal with optional exponent. -/
def decLiteral (l : List Char) : Bool :=
  let mant := l.takeWhile (fun c => c ≠ 'e' ∧ c ≠ 'E')
  match l.drop mant.length with
  | [] => decMantissa mant
  | _ :: ex => decMantissa mant && expPart ex

def isHexDigitChar (c : Char) : Bool :=
  c.isDigit || ('a' ≤ c && c ≤ 'f') || ('A' ≤ c && c ≤ 'F')

/-- Unsigned numeric literal: decimal, `Infinity`, or radix-prefixed. -/
def unsignedNumericLiteral (l : List Char) : Bool :=
  match l with
  | 'I' :: rest => rest = "nfinity".toList
  | '0' :: 'x' :: h => !h.isEmpty && h.all isHexDigitChar
  | '0' :: 'X' :: h => !h.isEmpty && h.all isHexDigitChar
  | '0' :: 'o' :: h => !h.isEmpty && h.all (fun c => '0' ≤ c && c ≤ '7')
  | '0' :: 'O' :: h => !h.isEmpty && h.all (fun c => '0' ≤ c && c ≤ '7')
  | '0' :: 'b' :: h => !h.isEmpty && h.all (fun c => c = '0' ∨ c = '1')
  | '0' :: 'B' :: h => !h.isEmpty && h.all (fun c => c = '0' ∨ c = '1')
  | _ => decLiteral l

/-- Whether `Number(s)` is `NaN` for a string `s`. -/
def strNumberIsNaN (s : String) : Bool :=
  let t := jsTrim s
  if t = "" then false
  else
    match t.toList with
    | '+' :: r => !unsignedNumericLiteral r
    | '-' :: r => !unsignedNumericLiteral r
    | r => !unsignedNumericLiteral r

/-- Whether `Number(v)` is `NaN`: numbers and booleans never are,
`Number(null)` is 0, strings follow the numeric-literal grammar. -/
def jsNumberIsNaN : JSVal → Bool
  | .vNull => false
  | .vNum _ => false
  | .vBool _ => false
  | .vStr s => strNumberIsNaN s

/-- The column list of VisualizationPanel: `Object.keys(data[0])`. -/
def vpColumns (data : List Row) : List String :=
  match data with
  | [] => []
  | first :: _ => first.map Prod.fst

/-- `numericColumns` from VisualizationPanel.tsx lines 33-35: first-row
value is a number, or `Number(value)` is not `NaN`. -/
def numericColumns (data : List Row) : List String :=
  (vpColumns data).filter fun col =>
    match data with
    | [] => false
    | first :: _ =>
      (match rowGet first col with | .vNum _ => true | _ => false) ||
        !jsNumberIsNaN (rowGet first col)

/-- `categoricalColumns` from VisualizationPanel.tsx lines 36-38:
first-row value is a string or a boolean. -/
def categoricalColumns (data : List Row) : List String :=
  (vpColumns data).filter fun col =>
    match data with
    | [] => false
    | first :: _ =>
      match rowGet first col with
      | .vStr _ => true
      | .vBool _ => true
      | _ => false

/-- A field descriptor as returned by mysql2: only `name` is read. -/
structure FieldInfo where
  name : String
  deriving DecidableEq, Repr

/-- Body of a response from the `/execute` route. -/
inductive ExecBody where
  | errorBody (error : String)
  | success (sql : String) (data : List Row) (columns : List String)
      (executionTime : Nat) (rowCount : Nat)
  deriving DecidableEq, Repr

/-- An HTTP response of the `/execute` route: status code and JSON body. -/
structure ExecResponse where
  status : Nat
  body : ExecBody
  deriving DecidableEq, Repr

/-- Outcome of `executeQuery`: resolved rows and fields, or a rejection
carrying the underlying error text. -/
abbrev ExecOutcome := Except String (List Row × List FieldInfo)

/-- The `POST /execute` handler (backend routes in
src/backend/src/services/database.ts): guard `if (!sql)` under JS
truthiness, then execute; `executionTime` is the measured wall-clock
difference, passed in as a parameter.  The boolean records whether
`executeQuery` was invoked. -/
def executeRoute (sqlField : Option String) (outcome : ExecOutcome)
    (executionTime : Nat) : ExecResponse × Bool :=
  if jsTruthy sqlField then
    let s := sqlField.getD ""
    match outcome with
    | .ok (rows, fields) =>
      (⟨200, .success s rows (fields.map FieldInfo.name) executionTime rows.length⟩, true)
    | .error _ => (⟨500, .errorBody "Failed to execute query"⟩, true)
  else
    (⟨400, .errorBody "SQL query is required"⟩, false)

/-- A selected file: only its name is read by `handleFile`. -/
structure FileModel where
  name : String
  deriving DecidableEq, Repr

/-- Component state of `DatasetUpload` touched by `handleFile`. -/
structure UploadState where
  file : Option FileModel
  error : Option String
  uploadSuccess : Bool
  deriving DecidableEq, Repr

/-- `handleFile` from DatasetUpload (src/unnamed/part_002 lines 42-50):
reject non-`.csv` names with a fixed error, otherwise select the file and
clear the error and success flags.  The boolean records whether any
network call was issued — `handleFile` never makes one. -/
def handleFile (s : UploadState) (selectedFile : FileModel) : UploadState × Bool :=
  if !jsEndsWith selectedFile.name ".csv" then
    ({ s with error := some "Please upload a CSV file" }, false)
  else
    ({ file := some selectedFile, error := none, uploadSuccess := false }, false)

/-! Spec-side definitions, written from the specification wording, to be
compared with the source-side definitions above. -/

/-- Case-insensitive substring test, as the specification phrases its
conditions: both sides lowered. -/
def containsCI (hay needle : String) : Bool :=
  jsIncludes (jsToLower hay) (jsToLower needle)

/-- The message reaches the default (data-answer) branch of
`renderAssistantMessage`: its type is neither of the two special tags and
the narrative guard fails. -/
def onDefaultPath (m : Message) : Prop :=
  m.type ≠ some "dataset_summary" ∧ m.type ≠ some "no_dataset" ∧
    narrativeGuard m = false

/-- The SQL-block condition as the specification words it: the query is
non-empty, contains the case-insensitive substring `select`, and contains
none of the four quoted routing tags (quotes included, case-insensitive). -/
def sqlBlockSpec (q : String) : Prop :=
  q ≠ "" ∧ containsCI q "select" = true ∧
    containsCI q "\x27greeting\x27" = false ∧
    containsCI q "\x27ai_info\x27" = false ∧
    containsCI q "\x27help\x27" = false ∧
    containsCI q "\x27out_of_scope\x27" = false

/-- The history payload as the specification words it: each of the last
ten turns maps to an entry carrying exactly its contribution — a user
turn contributes its content, an assistant turn contributes its summary,
else its explanation, else its raw content ("present" meaning non-empty,
as JS truthiness reads it) — and a turn contributing nothing is dropped. -/
def buildHistorySpec (messages : List Message) : List HistoryEntry :=
  (lastTen messages).filterMap fun m =>
    match m.role with
    | .user => if m.content ≠ "" then some { user := some m.content } else none
    | .assistant =>
      let a := if jsTruthy m.summary then m.summary.getD ""
               else if jsTruthy m.explanation then m.explanation.getD ""
               else m.content
      if a ≠ "" then some { assistant := some a } else none

/-! Theorems. -/

/-- Helper: shape of the renderer output when the narrative branch is
selected. -/
theorem render_narrative_of_guards (dateFmt : JSVal → String) (m : Message)
    (h1 : m.type ≠ some "dataset_summary") (h2 : m.type ≠ some "no_dataset")
    (h3 : narrativeGuard m = true) :
    renderAssistantMessage dateFmt m =
      .narrative (if jsTruthy m.explanation then m.explanation else none) := by
  unfold renderAssistantMessage
  rw [if_neg h1, if_neg h2, if_pos h3]

/-- C1: for every assistant message whose `type` is one of
`knowledge_base`, `greeting`, `help`, `ai_info`, `operation`,
`general_knowledge`, `out_of_scope`, `error`, the rendered output of
`renderAssistantMessage` is the narrative branch carrying only the
explanation text: it contains no SQL block and no data table, even when
the `query` and `data` fields are populated. -/
theorem narrative_types_render_explanation_only
    (dateFmt : JSVal → String) (m : Message) (t : String)
    (ht : m.type = some t) (hmem : t ∈ nonDataTypes) :
    renderAssistantMessage dateFmt m =
      .narrative (if jsTruthy m.explanation then m.explanation else none) ∧
    hasSqlBlock (renderAssistantMessage dateFmt m) = false ∧
    hasDataTable (renderAssistantMessage dateFmt m) = false := by
  have h1 : m.type ≠ some "dataset_summary" := by
    rw [ht]
    intro h
    rw [Option.some.injEq] at h
    subst h
    exact absurd hmem (by decide)
  have h2 : m.type ≠ some "no_dataset" := by
    rw [ht]
    intro h
    rw [Option.some.injEq] at h
    subst h
    exact absurd hmem (by decide)
  have h3 : narrativeGuard m = true := by
    simp only [narrativeGuard, ht, jsTruthy, Option.getD_some]
    have hne : t ≠ "" := by
      rintro rfl
      exact absurd hmem (by decide)
    have hc : nonDataTypes.contains t = true := by
      simpa using List.elem_eq_true_of_mem hmem
    simp [hne, hc]
    exact hmem
  have hr := render_narrative_of_guards dateFmt m h1 h2 h3
  exact ⟨hr, by rw [hr]; rfl, by rw [hr]; rfl⟩

/-- Witness for C1 at a concrete message: type `greeting`, with both a
populated `select` query and populated data. -/
theorem narrative_types_render_explanation_only_witness :
    renderAssistantMessage (fun _ => "")
        { content := "", role := .assistant, explanation := some "Hello!",
          query := some "SELECT 1", data := some [[("a", .vNum 1)]],
          type := some "greeting" } =
      .narrative (some "Hello!") ∧
    hasSqlBlock (renderAssistantMessage (fun _ => "")
        { content := "", role := .assistant, explanation := some "Hello!",
          query := some "SELECT 1", data := some [[("a", .vNum 1)]],
          type := some "greeting" }) = false ∧
    hasDataTable (renderAssistantMessage (fun _ => "")
        { content := "", role := .assistant, explanation := some "Hello!",
          query := some "SELECT 1", data := some [[("a", .vNum 1)]],
          type := some "greeting" }) = false := by
  have h := narrative_types_render_explanation_only (fun _ => "")
    { content := "", role := .assistant, explanation := some "Hello!",
      query := some "SELECT 1", data := some [[("a", .vNum 1)]],
      type := some "greeting" } "greeting" rfl (by decide)
  simpa using h

/-- Helper: a rendered data answer shows a SQL block exactly when its SQL
slot is filled. -/
theorem hasSqlBlock_dataAnswer (a : Option String) (b : Option String)
    (c : Option RenderedTable) :
    hasSqlBlock (.dataAnswer a b c) = b.isSome := by
  cases b <;> rfl

/-- Helper: shape of the renderer output on the default branch. -/
theorem render_dataAnswer_of_guards (dateFmt : JSVal → String) (m : Message)
    (h1 : m.type ≠ some "dataset_summary") (h2 : m.type ≠ some "no_dataset")
    (h3 : narrativeGuard m = false) :
    renderAssistantMessage dateFmt m =
      .dataAnswer
        (if jsTruthy (if jsTruthy m.summary then m.summary else m.explanation) then
          (if jsTruthy m.summary then m.summary else m.explanation) else none)
        (if sqlBlockGuard m.query then m.query else none)
        (match m.data with
         | some d => if d.length > 0 then some (renderDataTable dateFmt d) else none
         | none => none) := by
  unfold renderAssistantMessage
  rw [if_neg h1, if_neg h2, if_neg (by simp [h3])]

/-- Helper: the source-side SQL-block guard agrees with the spec-side
condition. -/
theorem sqlBlockGuard_iff_spec (q : Option String) :
    sqlBlockGuard q = true ↔ sqlBlockSpec (q.getD "") := by
  cases q with
  | none => simp [sqlBlockGuard, jsTruthy, sqlBlockSpec]
  | some s =>
    by_cases hs : s = ""
    · subst hs
      simp [sqlBlockGuard, jsTruthy, sqlBlockSpec]
    · have e1 : jsToLower "select" = "select" := by decide
      have e2 : jsToLower "\x27greeting\x27" = "\x27greeting\x27" := by decide
      have e3 : jsToLower "\x27ai_info\x27" = "\x27ai_info\x27" := by decide
      have e4 : jsToLower "\x27help\x27" = "\x27help\x27" := by decide
      have e5 : jsToLower "\x27out_of_scope\x27" = "\x27out_of_scope\x27" := by decide
      simp [sqlBlockGuard, jsTruthy, sqlBlockSpec, hs, containsCI, e1, e2, e3, e4, e5,
        and_assoc]

/-- C2: on the default (data-answer) render path, the SQL block is
rendered if and only if the message query is non-empty, contains the
case-insensitive substring `select`, and contains none of the quoted
literals `\x27greeting\x27`, `\x27ai_info\x27`, `\x27help\x27`,
`\x27out_of_scope\x27` (quotes included, case-insensitive); in
particular, any query containing the quoted literal `\x27greeting\x27`
has its SQL block suppressed. -/
theorem sql_block_rendered_iff (dateFmt : JSVal → String) (m : Message)
    (h : onDefaultPath m) :
    (hasSqlBlock (renderAssistantMessage dateFmt m) = true ↔
      sqlBlockSpec (m.query.getD "")) ∧
    (containsCI (m.query.getD "") "\x27greeting\x27" = true →
      hasSqlBlock (renderAssistantMessage dateFmt m) = false) := by
  obtain ⟨h1, h2, h3⟩ := h
  rw [render_dataAnswer_of_guards dateFmt m h1 h2 h3, hasSqlBlock_dataAnswer]
  constructor
  · by_cases hg : sqlBlockGuard m.query = true
    · rw [if_pos hg]
      have hspec := (sqlBlockGuard_iff_spec m.query).mp hg
      have hts : jsTruthy m.query = true := by
        cases hjs : jsTruthy m.query
        · unfold sqlBlockGuard at hg
          rw [hjs] at hg
          simp at hg
        · rfl
      have his : m.query.isSome = true := by
        cases hq : m.query with
        | none =>
          rw [hq] at hts
          simp [jsTruthy] at hts
        | some s => rfl
      exact iff_of_true his hspec
    · rw [if_neg hg]
      simp only [Option.isSome_none, Bool.false_eq_true, false_iff]
      intro hspec
      exact hg ((sqlBlockGuard_iff_spec m.query).mpr hspec)
  · intro hgreet
    have hg : sqlBlockGuard m.query = false := by
      by_contra hc
      rw [Bool.not_eq_false] at hc
      have hspec := (sqlBlockGuard_iff_spec m.query).mp hc
      rw [hspec.2.2.1] at hgreet
      exact Bool.false_ne_true hgreet
    rw [if_neg (by simp [hg])]
    rfl

/-- Witness for C2 at a concrete message on the default path whose query
contains both `select` and the quoted literal `\x27greeting\x27`: the
guard condition fails and the SQL block is suppressed. -/
theorem sql_block_rendered_iff_witness :
    (hasSqlBlock (renderAssistantMessage (fun _ => "")
        { content := "", role := .assistant, summary := some "s",
          query := some "SELECT x FROM t WHERE tag = \x27greeting\x27" }) = true ↔
      sqlBlockSpec "SELECT x FROM t WHERE tag = \x27greeting\x27") ∧
    hasSqlBlock (renderAssistantMessage (fun _ => "")
        { content := "", role := .assistant, summary := some "s",
          query := some "SELECT x FROM t WHERE tag = \x27greeting\x27" }) = false := by
  have h := sql_block_rendered_iff (fun _ => "")
    { content := "", role := .assistant, summary := some "s",
      query := some "SELECT x FROM t WHERE tag = \x27greeting\x27" }
    ⟨by decide, by decide, by decide⟩
  exact ⟨h.1, h.2 (by decide)⟩

/-- C3: for every input with a non-empty trimmed form, one `handleSubmit`
invocation appends exactly one user turn immediately and exactly one
assistant turn after the request resolves (success or failure), and
issues the network call; for an empty or whitespace-only input it issues
no network call and appends no turn. -/
theorem handleSubmit_one_user_one_assistant
    (input : String) (messages : List Message) (outcome : SendOutcome) :
    (jsTrim input ≠ "" →
      (handleSubmit input messages outcome).afterUser =
        messages ++ [mkUserMessage input] ∧
      (mkUserMessage input).role = .user ∧
      (∃ a : Message, a.role = .assistant ∧
        (handleSubmit input messages outcome).final =
          (handleSubmit input messages outcome).afterUser ++ [a]) ∧
      (handleSubmit input messages outcome).networkCalled = true) ∧
    (jsTrim input = "" →
      handleSubmit input messages outcome =
        { afterUser := messages, final := messages, networkCalled := false }) := by
  constructor
  · intro hne
    unfold handleSubmit
    rw [if_neg hne]
    cases outcome with
    | ok r => exact ⟨rfl, rfl, ⟨assistantFromResponse r, rfl, rfl⟩, rfl⟩
    | error e => exact ⟨rfl, rfl, ⟨errorMessage, rfl, rfl⟩, rfl⟩
  · intro he
    unfold handleSubmit
    rw [if_pos he]

/-- Witness for C3: a concrete non-empty submission that fails, and a
concrete whitespace-only submission. -/
theorem handleSubmit_one_user_one_assistant_witness :
    ((handleSubmit " hi " [] (.error ())).afterUser =
        [] ++ [mkUserMessage " hi "] ∧
      (mkUserMessage " hi ").role = .user ∧
      (∃ a : Message, a.role = .assistant ∧
        (handleSubmit " hi " [] (.error ())).final =
          (handleSubmit " hi " [] (.error ())).afterUser ++ [a]) ∧
      (handleSubmit " hi " [] (.error ())).networkCalled = true) ∧
    handleSubmit "   " [] (.error ()) =
      { afterUser := [], final := [], networkCalled := false } :=
  ⟨(handleSubmit_one_user_one_assistant " hi " [] (.error ())).1 (by decide),
   (handleSubmit_one_user_one_assistant "   " [] (.error ())).2 (by decide)⟩

/-- Helper: the rounding used by both locale formatters, evaluated at
`1234.5 * 100`. -/
theorem roundHalfAway_123450 : roundHalfAway ((2469 : ℚ)/2 * 100) = 123450 := by
  unfold roundHalfAway
  rw [if_pos (by norm_num)]
  have h2 : ((2469 : ℚ)/2 * 100 + 1/2) = 246901/2 := by norm_num
  rw [h2]
  norm_num [Rat.floor]

/-- Helper: the currency formatter at `1234.5`. -/
theorem localeUSD_1234_5 : localeUSD ((2469 : ℚ)/2) = "$1,234.50" := by
  simp only [localeUSD]
  rw [roundHalfAway_123450]
  decide

/-- Helper: the plain two-decimal formatter at `1234.5`. -/
theorem localeNum2_1234_5 : localeNum2 ((2469 : ℚ)/2) = "1,234.50" := by
  simp only [localeNum2]
  rw [roundHalfAway_123450]
  decide

/-- C4: case analysis of `formatValue` — `null`/`undefined` give `"N/A"`
in every column; date/time columns give the locale date-time rendering;
currency columns give the USD two-decimal rendering for numbers and plain
string coercion otherwise; other numbers give the grouped two-decimal
rendering; everything else is string-coerced.  Concretely, `1234.5`
renders as `"$1,234.50"` in column `total_revenue` and as `"1,234.50"`
in column `score`. -/
theorem formatValue_cases :
    (∀ (dateFmt : JSVal → String) (c : String),
      formatValue dateFmt .vNull c = "N/A") ∧
    (∀ (dateFmt : JSVal → String) (v : JSVal) (c : String), v ≠ .vNull →
      isDateTimeColumn c = true → formatValue dateFmt v c = dateFmt v) ∧
    (∀ (dateFmt : JSVal → String) (q : ℚ) (c : String),
      isDateTimeColumn c = false → isCurrencyColumn c = true →
      formatValue dateFmt (.vNum q) c = localeUSD q) ∧
    (∀ (dateFmt : JSVal → String) (v : JSVal) (c : String), v ≠ .vNull →
      (∀ q : ℚ, v ≠ .vNum q) →
      isDateTimeColumn c = false → isCurrencyColumn c = true →
      formatValue dateFmt v c = jsToString v) ∧
    (∀ (dateFmt : JSVal → String) (q : ℚ) (c : String),
      isDateTimeColumn c = false → isCurrencyColumn c = false →
      formatValue dateFmt (.vNum q) c = localeNum2 q) ∧
    (∀ (dateFmt : JSVal → String) (v : JSVal) (c : String), v ≠ .vNull →
      (∀ q : ℚ, v ≠ .vNum q) →
      isDateTimeColumn c = false → isCurrencyColumn c = false →
      formatValue dateFmt v c = jsToString v) ∧
    (∀ dateFmt : JSVal → String,
      formatValue dateFmt (.vNum (2469/2)) "total_revenue" = "$1,234.50") ∧
    (∀ dateFmt : JSVal → String,
      formatValue dateFmt (.vNum (2469/2)) "score" = "1,234.50") := by
  refine ⟨?_, ?_, ?_, ?_, ?_, ?_, ?_, ?_⟩
  · intro d c
    unfold formatValue
    rw [if_pos rfl]
  · intro d v c hv hdt
    unfold formatValue
    rw [if_neg hv, if_pos hdt]
  · intro d q c hdt hcur
    unfold formatValue
    rw [if_neg (by simp), if_neg (by simp [hdt]), if_pos hcur]
  · intro d v c hv hq hdt hcur
    unfold formatValue
    rw [if_neg hv, if_neg (by simp [hdt]), if_pos hcur]
    cases v with
    | vNull => exact absurd rfl hv
    | vNum q => exact absurd rfl (hq q)
    | vStr s => rfl
    | vBool b => rfl
  · intro d q c hdt hcur
    unfold formatValue
    rw [if_neg (by simp), if_neg (by simp [hdt]), if_neg (by simp [hcur])]
  · intro d v c hv hq hdt hcur
    unfold formatValue
    rw [if_neg hv, if_neg (by simp [hdt]), if_neg (by simp [hcur])]
    cases v with
    | vNull => exact absurd rfl hv
    | vNum q => exact absurd rfl (hq q)
    | vStr s => rfl
    | vBool b => rfl
  · intro d
    unfold formatValue
    rw [if_neg (by simp), if_neg (by simp [show isDateTimeColumn "total_revenue" = false
      by decide]), if_pos (show isCurrencyColumn "total_revenue" = true by decide)]
    exact localeUSD_1234_5
  · intro d
    unfold formatValue
    rw [if_neg (by simp), if_neg (by simp [show isDateTimeColumn "score" = false by decide]),
      if_neg (by simp [show isCurrencyColumn "score" = false by decide])]
    exact localeNum2_1234_5

/-- Witness for C4: the branch statements applied at concrete inputs —
`1234.5` in `total_amount` (currency), the string `"open"` in `price`
(coerced unchanged), `1234.5` in `score` (grouped number), `"x"` in
`name` (coerced), `5` in `created_date` (date branch). -/
theorem formatValue_cases_witness :
    formatValue (fun _ => "DATE") (.vNum (2469/2)) "total_amount" = "$1,234.50" ∧
    formatValue (fun _ => "DATE") (.vStr "open") "price" = "open" ∧
    formatValue (fun _ => "DATE") (.vNum (2469/2)) "score" = "1,234.50" ∧
    formatValue (fun _ => "DATE") (.vStr "x") "name" = "x" ∧
    formatValue (fun _ => "DATE") (.vNum 5) "created_date" = "DATE" := by
  refine ⟨?_, ?_, ?_, ?_, ?_⟩
  · rw [formatValue_cases.2.2.1 (fun _ => "DATE") (2469/2) "total_amount"
      (by decide) (by decide)]
    exact localeUSD_1234_5
  · rw [formatValue_cases.2.2.2.1 (fun _ => "DATE") (.vStr "open") "price"
      (by decide) (fun q => by simp) (by decide) (by decide)]
    decide
  · rw [formatValue_cases.2.2.2.2.1 (fun _ => "DATE") (2469/2) "score"
      (by decide) (by decide)]
    exact localeNum2_1234_5
  · rw [formatValue_cases.2.2.2.2.2.1 (fun _ => "DATE") (.vStr "x") "name"
      (by decide) (fun q => by simp) (by decide) (by decide)]
    decide
  · rw [formatValue_cases.2.1 (fun _ => "DATE") (.vNum 5) "created_date"
      (by simp) (by decide)]

/-- C5 counterexample: with a single row whose only value is the string
`"123"`, the column `"x"` is placed in BOTH `numericColumns` (the string
parses as a number) and `categoricalColumns` (its first-row value is a
string), so the two classes are not disjoint and the column does not fall
into exactly one of them. -/
theorem vp_classes_overlap_cx :
    "x" ∈ numericColumns [[("x", .vStr "123")]] ∧
    "x" ∈ categoricalColumns [[("x", .vStr "123")]] := by
  constructor <;> decide

/-- C5 amended: the Visualization Adapter classifies columns by sampling
only the first row — a column is categorical exactly when its first-row
value is a string or boolean, numeric exactly when it is a number or
`Number(...)` of it is not `NaN` — and every column falls into at least
one of the two classes, but the classes are not disjoint in general. -/
theorem vp_columns_classification (first : Row) (rest : List Row) (c : String)
    (hc : c ∈ vpColumns (first :: rest)) :
    (c ∈ categoricalColumns (first :: rest) ↔
      (∃ s, rowGet first c = .vStr s) ∨ (∃ b, rowGet first c = .vBool b)) ∧
    (c ∈ numericColumns (first :: rest) ↔
      ((∃ q, rowGet first c = .vNum q) ∨ jsNumberIsNaN (rowGet first c) = false)) ∧
    (c ∈ categoricalColumns (first :: rest) ∨ c ∈ numericColumns (first :: rest)) := by
  have hcat : c ∈ categoricalColumns (first :: rest) ↔
      (∃ s, rowGet first c = .vStr s) ∨ (∃ b, rowGet first c = .vBool b) := by
    simp only [categoricalColumns, List.mem_filter, hc, true_and]
    cases rowGet first c <;> simp
  have hnum : c ∈ numericColumns (first :: rest) ↔
      ((∃ q, rowGet first c = .vNum q) ∨ jsNumberIsNaN (rowGet first c) = false) := by
    simp only [numericColumns, List.mem_filter, hc, true_and]
    cases rowGet first c <;> simp [jsNumberIsNaN]
  refine ⟨hcat, hnum, ?_⟩
  cases hv : rowGet first c with
  | vNull => exact Or.inr (hnum.mpr (Or.inr (by rw [hv]; rfl)))
  | vNum q => exact Or.inr (hnum.mpr (Or.inl ⟨q, hv⟩))
  | vStr s => exact Or.inl (hcat.mpr (Or.inl ⟨s, hv⟩))
  | vBool b => exact Or.inl (hcat.mpr (Or.inr ⟨b, hv⟩))

/-- Witness for C5 (amended) at a one-row, one-column data set holding the
string `"abc"`: the column is categorical, not numeric. -/
theorem vp_columns_classification_witness :
    ("x" ∈ categoricalColumns [[("x", .vStr "abc")]] ↔
      (∃ s, rowGet [("x", .vStr "abc")] "x" = .vStr s) ∨
      (∃ b, rowGet [("x", .vStr "abc")] "x" = .vBool b)) ∧
    ("x" ∈ numericColumns [[("x", .vStr "abc")]] ↔
      ((∃ q, rowGet [("x", .vStr "abc")] "x" = .vNum q) ∨
        jsNumberIsNaN (rowGet [("x", .vStr "abc")] "x") = false)) ∧
    ("x" ∈ categoricalColumns [[("x", .vStr "abc")]] ∨
      "x" ∈ numericColumns [[("x", .vStr "abc")]]) :=
  vp_columns_classification [("x", .vStr "abc")] [] "x" (by decide)

/-- C6 counterexample: a data-answer message whose `data` is present with
length 0 renders with NO "no data" notice (and no table): the guard
`message.data && message.data.length > 0` skips the whole table block, so
`renderDataTable` — the sole producer of the notice — is never invoked. -/
theorem empty_data_no_notice_cx :
    renderAssistantMessage (fun _ => "")
        { content := "", role := .assistant, data := some [] } =
      .dataAnswer none none none ∧
    hasNoDataNotice (renderAssistantMessage (fun _ => "")
        { content := "", role := .assistant, data := some [] }) = false := by
  constructor <;> rfl

/-- C6 amended: on the data-answer path a message whose `data` is present
but empty renders no table and also no "no data" notice — the table block
is skipped entirely; `renderDataTable` itself yields the notice on empty
input but `renderAssistantMessage` never calls it then. -/
theorem empty_data_renders_no_table_no_notice (dateFmt : JSVal → String)
    (m : Message) (h : onDefaultPath m) (hd : m.data = some []) :
    hasDataTable (renderAssistantMessage dateFmt m) = false ∧
    hasNoDataNotice (renderAssistantMessage dateFmt m) = false ∧
    renderDataTable dateFmt [] = .noDataNotice := by
  obtain ⟨h1, h2, h3⟩ := h
  rw [render_dataAnswer_of_guards dateFmt m h1 h2 h3, hd]
  exact ⟨rfl, rfl, rfl⟩

/-- Witness for C6 (amended) at a concrete summary-bearing message with
empty data. -/
theorem empty_data_renders_no_table_no_notice_witness :
    hasDataTable (renderAssistantMessage (fun _ => "")
        { content := "", role := .assistant, summary := some "No results",
          data := some [] }) = false ∧
    hasNoDataNotice (renderAssistantMessage (fun _ => "")
        { content := "", role := .assistant, summary := some "No results",
          data := some [] }) = false ∧
    renderDataTable (fun _ => "") [] = .noDataNotice :=
  empty_data_renders_no_table_no_notice (fun _ => "")
    { content := "", role := .assistant, summary := some "No results",
      data := some [] }
    ⟨by decide, by decide, by decide⟩ rfl

/-- Helper: filtering a mapped list agrees with a `filterMap` whose
function fuses the map and the filter decision pointwise. -/
theorem map_filter_eq_filterMap {α β : Type} (f : α → β) (p : β → Bool)
    (g : α → Option β)
    (hfg : ∀ a, (if p (f a) then some (f a) else none) = g a) :
    ∀ l : List α, (l.map f).filter p = l.filterMap g := by
  intro l
  induction l with
  | nil => rfl
  | cons a l ih =>
    rw [List.map_cons, List.filter_cons, List.filterMap_cons, ← hfg a]
    by_cases hp : p (f a) = true
    · rw [if_pos hp, if_pos hp, ih]
    · rw [if_neg hp, if_neg hp, ih]

/-- C7: the history payload built by `handleSubmit` equals the
specification description — take the last ten turns, map a user turn to
an entry carrying its content and an assistant turn to an entry carrying
its summary, else its explanation, else its raw content (a field being
"present" meaning non-empty, as JS truthiness reads it), and drop every
turn contributing neither value. -/
theorem buildHistory_eq_spec (messages : List Message) :
    buildHistory messages = buildHistorySpec messages := by
  unfold buildHistory buildHistorySpec
  apply map_filter_eq_filterMap
  intro m
  cases hr : m.role with
  | user =>
    by_cases hcc : m.content = ""
    · simp [hr, hcc, jsTruthy]
    · simp [hr, hcc, jsTruthy]
  | assistant =>
    by_cases ha : (if jsTruthy m.summary then m.summary.getD ""
                   else if jsTruthy m.explanation then m.explanation.getD ""
                   else m.content) = ""
    · simp only [hr]
      simp [ha, jsTruthy]
    · simp only [hr]
      simp [ha, jsTruthy]

/-- C8: the `POST /execute` route — a missing `sql` field yields status
400 and the query is never executed; a failing execution yields status
500 with the fixed message "Failed to execute query", the body being
independent of the underlying error text; a successful execution yields
the `{sql, data, columns, executionTime, rowCount}` payload. -/
theorem executeRoute_spec :
    (∀ (outcome : ExecOutcome) (t : Nat),
      executeRoute none outcome t =
        (⟨400, .errorBody "SQL query is required"⟩, false)) ∧
    (∀ (s e : String) (t : Nat), s ≠ "" →
      executeRoute (some s) (.error e) t =
        (⟨500, .errorBody "Failed to execute query"⟩, true)) ∧
    (∀ (s : String) (rows : List Row) (fields : List FieldInfo) (t : Nat), s ≠ "" →
      executeRoute (some s) (.ok (rows, fields)) t =
        (⟨200, .success s rows (fields.map FieldInfo.name) t rows.length⟩, true)) := by
  refine ⟨?_, ?_, ?_⟩
  · intro outcome t
    rfl
  · intro s e t hs
    unfold executeRoute
    rw [if_pos (by simp [jsTruthy, hs])]
  · intro s rows fields t hs
    unfold executeRoute
    rw [if_pos (by simp [jsTruthy, hs])]
    rfl

/-- Witness for C8: concrete requests — a missing `sql`, a failing
execution whose error text does not reach the body, and a success. -/
theorem executeRoute_spec_witness :
    executeRoute none (.error "table missing") 7 =
      (⟨400, .errorBody "SQL query is required"⟩, false) ∧
    executeRoute (some "SELECT 1") (.error "table missing") 7 =
      (⟨500, .errorBody "Failed to execute query"⟩, true) ∧
    executeRoute (some "SELECT 1") (.ok ([[("a", .vStr "v")]], [⟨"a"⟩])) 7 =
      (⟨200, .success "SELECT 1" [[("a", .vStr "v")]] ["a"] 7 1⟩, true) :=
  ⟨executeRoute_spec.1 (.error "table missing") 7,
   executeRoute_spec.2.1 "SELECT 1" "table missing" 7 (by decide),
   executeRoute_spec.2.2 "SELECT 1" [[("a", .vStr "v")]] [⟨"a"⟩] 7 (by decide)⟩

/-- C9: `handleFile` — a selected file whose name does not end in `.csv`
is rejected with the fixed message "Please upload a CSV file", the
selected-file state is left unchanged, and no network call is made; a
`.csv` name is accepted as the selected file (and `handleFile` itself
never issues a network call on either branch). -/
theorem handleFile_spec :
    (∀ (s : UploadState) (f : FileModel), jsEndsWith f.name ".csv" = false →
      handleFile s f = ({ s with error := some "Please upload a CSV file" }, false) ∧
      (handleFile s f).1.file = s.file ∧ (handleFile s f).2 = false) ∧
    (∀ (s : UploadState) (f : FileModel), jsEndsWith f.name ".csv" = true →
      handleFile s f =
        ({ file := some f, error := none, uploadSuccess := false }, false)) := by
  constructor
  · intro s f h
    have he : handleFile s f = ({ s with error := some "Please upload a CSV file" }, false) := by
      unfold handleFile
      rw [if_pos (by simp [h])]
    exact ⟨he, by rw [he], by rw [he]⟩
  · intro s f h
    unfold handleFile
    rw [if_neg (by simp [h])]

/-- Witness for C9: a concrete `.txt` rejection leaving the state intact
and a concrete `.csv` acceptance. -/
theorem handleFile_spec_witness :
    (handleFile ⟨some ⟨"old.csv"⟩, none, true⟩ ⟨"data.txt"⟩ =
        ({ file := some ⟨"old.csv"⟩, error := some "Please upload a CSV file",
           uploadSuccess := true }, false) ∧
      (handleFile ⟨some ⟨"old.csv"⟩, none, true⟩ ⟨"data.txt"⟩).1.file =
        some ⟨"old.csv"⟩ ∧
      (handleFile ⟨some ⟨"old.csv"⟩, none, true⟩ ⟨"data.txt"⟩).2 = false) ∧
    handleFile ⟨some ⟨"old.csv"⟩, none, true⟩ ⟨"data.csv"⟩ =
      ({ file := some ⟨"data.csv"⟩, error := none, uploadSuccess := false }, false) :=
  ⟨handleFile_spec.1 ⟨some ⟨"old.csv"⟩, none, true⟩ ⟨"data.txt"⟩ (by decide),
   handleFile_spec.2 ⟨some ⟨"old.csv"⟩, none, true⟩ ⟨"data.csv"⟩ (by decide)⟩

/-- C10: `renderAssistantMessage` never reads the `content` field — its
output is invariant under any change of `content` — and on the synthetic
failure turn appended by `handleSubmit` (whose fixed failure text lives
only in `content`) it renders an empty data-answer body: no main text, no
SQL block, no table, so the failure text is never displayed. -/
theorem render_ignores_content :
    (∀ (dateFmt : JSVal → String) (m : Message) (c : String),
      renderAssistantMessage dateFmt { m with content := c } =
        renderAssistantMessage dateFmt m) ∧
    (∀ dateFmt : JSVal → String,
      renderAssistantMessage dateFmt errorMessage = .dataAnswer none none none) := by
  constructor
  · intro dateFmt m c
    cases m
    rfl
  · intro dateFmt
    rfl

end QuantAI
